import Mathlib

/-! Shallow embedding of the Khayal WhatsApp journaling assistant
(crisis detector, mood analyzer, pattern engine, onboarding state
machine, conversation dispatcher, daily summary generator, and the
message-persistence layer), together with theorems settling the
specification claims about it.

Python strings are modelled as `List Char` where character-level
operations matter (lowercasing, stripping, substring search, the
time-preference regular expressions) and as `String` for opaque
payloads.  External LLM calls are modelled by their parsed outcome:
`none` stands for any failure of the call or of JSON parsing (both are
caught by the same `except` blocks in the source), `some j` for a
successfully parsed JSON object whose fields are `Option`-valued
because the code reads them with `dict.get` defaults. -/

namespace Khayal

/-- ASCII apostrophe (U+0027), built from its code point so the
character can be embedded in message literals. -/
def apostrophe : String := String.mk [Char.ofNat 39]

/-- Lowercase one character; models Python `str.lower` on the ASCII
range (all crisis keywords and parser inputs compared by the source
are ASCII; other characters are untouched). -/
def lowerChar (c : Char) : Char :=
  if 65 ≤ c.toNat ∧ c.toNat ≤ 90 then Char.ofNat (c.toNat + 32) else c

/-- Python `str.lower` on a character list. -/
def pyLower (cs : List Char) : List Char := cs.map lowerChar

/-- Python whitespace for `str.strip` (space, tab, newline, carriage
return, vertical tab, form feed). -/
def isPySpace (c : Char) : Bool :=
  c = ' ' || c = '\t' || c = '\n' || c = '\r' || c = Char.ofNat 11 || c = Char.ofNat 12

/-- Python `str.strip`. -/
def pyStrip (cs : List Char) : List Char :=
  ((cs.dropWhile isPySpace).reverse.dropWhile isPySpace).reverse

/-- `leadsWith needle hay` holds when `needle` starts `hay`. -/
def leadsWith : List Char → List Char → Bool
  | [], _ => true
  | _ :: _, [] => false
  | a :: as, b :: bs => a = b && leadsWith as bs

/-- Python substring containment `needle in hay`. -/
def containsSub (hay needle : List Char) : Bool :=
  leadsWith needle hay ||
    match hay with
    | [] => false
    | _ :: t => containsSub t needle

/-! ## Crisis detector (`crisis_detector.py`) -/

/-- The fixed crisis keyword list of `CrisisDetector.__init__`. -/
def crisisKeywords : List String :=
  ["suicide", "kill myself", "end my life", "want to die",
   "self harm", "cut myself", "hurt myself", "no reason to live",
   "better off dead", "can" ++ apostrophe ++ "t go on", "give up on life"]

/-- `CrisisDetector._check_keywords`: case-insensitive substring match
of the message against the fixed keyword list. -/
def checkKeywords (message : String) : Bool :=
  crisisKeywords.any fun kw => containsSub (pyLower message.data) kw.data

/-- Parsed JSON object returned by the deep-path crisis LLM call;
fields are optional because `detect_crisis` reads them with
`dict.get` defaults. -/
structure CrisisJson where
  is_crisis : Option Bool
  severity : Option String
  crisis_type : Option String
deriving DecidableEq

/-- `CrisisDetector._llm_detect_crisis`: on any exception (call
failure, timeout, malformed JSON) it returns the fixed fallback
dictionary `{is_crisis: False, severity: "low", crisis_type: "none"}`;
otherwise it returns the parsed object unchanged. -/
def llmDetectCrisis (outcome : Option CrisisJson) : CrisisJson :=
  match outcome with
  | some j => j
  | none => ⟨some false, some "low", some "none"⟩

/-- `CrisisDetector._get_recommended_action`. -/
def recommendedAction (crisis_type severity : String) : String :=
  if crisis_type = "suicidal" then "immediate_resources"
  else if crisis_type = "self_harm" then "urgent_resources"
  else if severity = "high" ∨ severity = "critical" then "supportive_resources"
  else "gentle_support"

/-- The crisis verdict returned by `CrisisDetector.detect_crisis`. -/
structure CrisisVerdict where
  is_crisis : Bool
  severity : String
  crisis_type : String
  should_escalate : Bool
  recommended_action : String
deriving DecidableEq

/-- `CrisisDetector.detect_crisis`: keyword fast path OR deep-path
verdict; severity/type come from the deep-path result with `.get`
defaults `high` / `severe_distress` when the verdict is a crisis, and
are forced to `low` / `none` otherwise. -/
def detectCrisis (message : String) (outcome : Option CrisisJson) : CrisisVerdict :=
  let has_keywords := checkKeywords message
  let llm_analysis := llmDetectCrisis outcome
  let is_crisis := has_keywords || llm_analysis.is_crisis.getD false
  let severity := if is_crisis then llm_analysis.severity.getD "high" else "low"
  let crisis_type := if is_crisis then llm_analysis.crisis_type.getD "severe_distress" else "none"
  let should_escalate :=
    (severity = "high" ∨ severity = "critical") ∨
      (crisis_type = "suicidal" ∨ crisis_type = "self_harm")
  { is_crisis := is_crisis
    severity := severity
    crisis_type := crisis_type
    should_escalate := decide should_escalate
    recommended_action := recommendedAction crisis_type severity }

/-- A helpline entry of `CrisisDetector._get_helplines`. -/
structure Helpline where
  name : String
  number : String
  hours : String
  languages : String
deriving DecidableEq

/-- The India helpline list of `CrisisDetector._get_helplines`
(also the default for unknown country codes). -/
def helplinesIN : List Helpline :=
  [⟨"AASRA", "91-9820466726", "24/7", "English, Hindi"⟩,
   ⟨"Vandrevala Foundation", "1860-266-2345", "24/7", "English, Hindi, Multiple"⟩,
   ⟨"iCall", "91-9152987821", "Mon-Sat, 8am-10pm", "English, Hindi, Marathi"⟩,
   ⟨"Snehi", "91-22-27546669", "24/7", "Hindi"⟩]

/-- `CrisisDetector._get_helplines`: the fixed country table, with the
India list as the default for unknown country codes. -/
def getHelplines (country_code : String) : List Helpline :=
  if country_code = "IN" then helplinesIN
  else if country_code = "PK" then
    [⟨"Umang Helpline", "0317-4288665", "24/7", "Urdu, English"⟩,
     ⟨"Rozan Helpline", "0800-22444", "Mon-Fri, 9am-6pm", "Urdu"⟩]
  else if country_code = "US" then
    [⟨"988 Suicide & Crisis Lifeline", "988", "24/7", "English, Spanish"⟩,
     ⟨"Crisis Text Line", "Text HOME to 741741", "24/7", "English"⟩]
  else if country_code = "UK" then
    [⟨"Samaritans", "116-123", "24/7", "English"⟩]
  else helplinesIN

/-- The `suicidal` template of `get_crisis_response`, with the
`{resources}` placeholder substituted (`str.format`). -/
def crisisMsgSuicidal (resources : String) : String :=
  "I" ++ apostrophe ++ "m really concerned about you right now. What you" ++ apostrophe ++
  "re going through sounds incredibly painful.\n\nPlease know: You don" ++ apostrophe ++
  "t have to face this alone.\n\n🆘 Immediate Help Available 24/7:\n" ++ resources ++
  "\n\nThese people are trained to help and they care. Please reach out to them right now.\n\nI" ++
  apostrophe ++
  "m here too, but they can provide the support you need in this moment. You matter, and there are people who want to help you through this."

/-- The `self_harm` template of `get_crisis_response`. -/
def crisisMsgSelfHarm (resources : String) : String :=
  "I hear how much pain you" ++ apostrophe ++
  "re in right now. That urge to hurt yourself must be really overwhelming.\n\nPlease pause for a moment. You deserve care and support:\n\n🆘 Get Support Now:\n" ++
  resources ++
  "\n\nThese helplines have counselors who understand what you" ++ apostrophe ++
  "re going through and can help you through this moment.\n\nYou" ++ apostrophe ++
  "re stronger than you know, but you don" ++ apostrophe ++ "t have to be strong alone."

/-- The `severe_distress` template of `get_crisis_response`. -/
def crisisMsgSevereDistress (resources : String) : String :=
  "What you" ++ apostrophe ++
  "re going through sounds really difficult, and I want you to know it" ++ apostrophe ++
  "s okay to ask for help.\n\nIf things feel too heavy right now:\n\n💚 Support Available:\n" ++
  resources ++
  "\n\nTalking to someone trained can really help. You don" ++ apostrophe ++
  "t have to carry this alone.\n\nI" ++ apostrophe ++
  "m here to listen, but please consider reaching out to them too."

/-- The default template of `get_crisis_response`. -/
def crisisMsgDefault (resources : String) : String :=
  "I can feel you" ++ apostrophe ++
  "re going through a tough time. That takes courage to share.\n\nIf you ever need more support:\n\n💚 Resources Available:\n" ++
  resources ++
  "\n\nSometimes talking to a professional really helps. Just know the option is there whenever you need it."

/-- The result of `CrisisDetector.get_crisis_response`. -/
structure CrisisResponse where
  message : String
  resources : List Helpline
  followup : String
deriving DecidableEq

/-- `CrisisDetector.get_crisis_response`: picks the template by crisis
type, interpolates the top-3 helplines, and returns the fixed
`check_in_24h` follow-up marker. -/
def getCrisisResponse (crisis_type : String) (user_location : String) : CrisisResponse :=
  let resources := getHelplines user_location
  let resource_text :=
    String.intercalate "\n" ((resources.take 3).map fun r => "• " ++ r.name ++ ": " ++ r.number)
  let message :=
    if crisis_type = "suicidal" then crisisMsgSuicidal resource_text
    else if crisis_type = "self_harm" then crisisMsgSelfHarm resource_text
    else if crisis_type = "severe_distress" then crisisMsgSevereDistress resource_text
    else crisisMsgDefault resource_text
  ⟨message, resources, "check_in_24h"⟩

/-! ## Mood analyzer (`mood_analyzer.py`) -/

/-- Parsed JSON object returned by the mood-classification LLM call;
fields are optional because `analyze` fills them with `setdefault`. -/
structure MoodJson where
  mood : Option String
  intensity : Option Int
  themes : Option (List String)
  needs_support : Option Bool
  secondary_moods : Option (List String)
deriving DecidableEq

/-- The mood signal returned by `MoodAnalyzer.analyze`. -/
structure MoodSignal where
  mood : String
  intensity : Int
  themes : List String
  needs_support : Bool
  secondary_moods : List String
deriving DecidableEq

/-- `MoodAnalyzer._get_default_mood`. -/
def getDefaultMood : MoodSignal :=
  { mood := "neutral", intensity := 5, themes := [], needs_support := false,
    secondary_moods := [] }

/-- `MoodAnalyzer.analyze`: on any failure of the call or of JSON
parsing (`outcome = none`) it returns the fixed default; on a parsed
object it only applies `setdefault` for missing fields and passes the
present values through unchanged (no range validation). -/
def analyzeMood (outcome : Option MoodJson) : MoodSignal :=
  match outcome with
  | none => getDefaultMood
  | some j =>
    { mood := j.mood.getD "neutral"
      intensity := j.intensity.getD 5
      themes := j.themes.getD []
      needs_support := j.needs_support.getD false
      secondary_moods := j.secondary_moods.getD [] }

/-! ## Pattern engine (`semantic_memory.py`) -/

/-- One row of the `detect_patterns` query: `mood` is non-null by the
`mood IS NOT NULL` filter, `intensity` and `themes` may be NULL. -/
structure PatternRow where
  mood : String
  intensity : Option Int
  themes : Option String
deriving DecidableEq

/-- Python `l[-n:]`. -/
def lastN (n : Nat) (l : List α) : List α := l.drop (l.length - n)

/-- `SemanticMemory._analyze_trend`: fewer than 3 points is `stable`;
otherwise compare the mean of the first `len // 2` intensities with
the mean of the rest (Python float division modelled as `ℚ`). -/
def analyzeTrend (intensities : List Int) : String :=
  if intensities.length < 3 then "stable"
  else
    let mid := intensities.length / 2
    let first_half : ℚ := ((intensities.take mid).sum : ℚ) / (mid : ℚ)
    let second_half : ℚ :=
      ((intensities.drop mid).sum : ℚ) / ((intensities.length - mid : ℕ) : ℚ)
    let diff := second_half - first_half
    if diff > 3 / 2 then "intensifying"
    else if diff < -(3 / 2) then "improving"
    else "stable"

/-- The negative-mood list local to `SemanticMemory._needs_attention`
(note that it contains `lonely`, unlike the list used by
`_find_stress_triggers`). -/
def negativeMoodsAttention : List String :=
  ["stressed", "anxious", "overwhelmed", "frustrated", "sad", "lonely"]

/-- The negative-mood list of `SemanticMemory._find_stress_triggers`. -/
def negativeMoodsTriggers : List String :=
  ["stressed", "anxious", "overwhelmed", "frustrated", "sad"]

/-- `SemanticMemory._needs_attention` applied to the qualifying rows
(the source passes `messages` and `intensities`, where `intensities`
is exactly `[m['intensity'] for m in messages]`). -/
def needsAttention (messages : List PatternRow) : Bool :=
  let intensities := messages.map (·.intensity)
  let recent_messages := lastN 5 messages
  let high_negative_count :=
    (recent_messages.filter fun m =>
      negativeMoodsAttention.contains m.mood &&
        match m.intensity with
        | some i => decide (7 ≤ i)
        | none => false).length
  if recent_messages.length ≥ 3 ∧
      ((lastN 3 recent_messages).filter fun m =>
        negativeMoodsAttention.contains m.mood).length ≥ 2 then
    true
  else if high_negative_count ≥ 2 then true
  else if intensities.length ≥ 5 ∧
      (let recent_intensities : List Int := (lastN 5 intensities).filterMap id
       recent_intensities ≠ [] ∧
         ((recent_intensities.sum : ℚ) / (recent_intensities.length : ℚ) ≥ 7)) then
    true
  else false

/-- The needs-attention rule exactly as claim C6 words it: negative
set without `lonely`, and the three clauses unconditional on the
message count (clause (c) reads the average of the last five
qualifying intensities, ignoring nulls, whatever the count). -/
def needsAttentionClaim (messages : List PatternRow) : Bool :=
  let ruleA :=
    ((lastN 3 messages).filter fun m =>
      negativeMoodsTriggers.contains m.mood).length ≥ 2
  let ruleB :=
    ((lastN 5 messages).filter fun m =>
      negativeMoodsTriggers.contains m.mood &&
        match m.intensity with
        | some i => decide (7 ≤ i)
        | none => false).length ≥ 2
  let recent_intensities : List Int := (lastN 5 (messages.map (·.intensity))).filterMap id
  let ruleC :=
    recent_intensities ≠ [] ∧
      ((recent_intensities.sum : ℚ) / (recent_intensities.length : ℚ) ≥ 7)
  decide (ruleA ∨ ruleB ∨ ruleC)

/-! ### Integer-arithmetic evaluation forms

The rational-average comparisons above mirror the source's float
division exactly (the values involved are small integers, for which
Python float arithmetic is exact).  Mathlib's field structure on `ℚ`
does not reduce inside the kernel, so for evaluating the functions on
concrete inputs we provide cross-multiplied integer forms and prove
them equal. -/

/-- Cross-multiplied form of `analyzeTrend`. -/
def analyzeTrendInt (intensities : List Int) : String :=
  if intensities.length < 3 then "stable"
  else
    let n := intensities.length
    let mid := n / 2
    let a := (intensities.take mid).sum
    let b := (intensities.drop mid).sum
    if 3 * ((mid : ℤ) * ((n - mid : ℕ) : ℤ)) < 2 * (b * mid - a * (n - mid : ℕ)) then
      "intensifying"
    else if 2 * (b * mid - a * (n - mid : ℕ)) < -(3 * ((mid : ℤ) * ((n - mid : ℕ) : ℤ))) then
      "improving"
    else "stable"

/-- Cross-multiplied form of `needsAttention`. -/
def needsAttentionInt (messages : List PatternRow) : Bool :=
  let intensities := messages.map (·.intensity)
  let recent_messages := lastN 5 messages
  let high_negative_count :=
    (recent_messages.filter fun m =>
      negativeMoodsAttention.contains m.mood &&
        match m.intensity with
        | some i => decide (7 ≤ i)
        | none => false).length
  if recent_messages.length ≥ 3 ∧
      ((lastN 3 recent_messages).filter fun m =>
        negativeMoodsAttention.contains m.mood).length ≥ 2 then
    true
  else if high_negative_count ≥ 2 then true
  else if intensities.length ≥ 5 ∧
      (let recent_intensities : List Int := (lastN 5 intensities).filterMap id
       recent_intensities ≠ [] ∧ 7 * (recent_intensities.length : ℤ) ≤ recent_intensities.sum) then
    true
  else false

/-- Cross-multiplied form of `needsAttentionClaim`. -/
def needsAttentionClaimInt (messages : List PatternRow) : Bool :=
  let ruleA :=
    ((lastN 3 messages).filter fun m =>
      negativeMoodsTriggers.contains m.mood).length ≥ 2
  let ruleB :=
    ((lastN 5 messages).filter fun m =>
      negativeMoodsTriggers.contains m.mood &&
        match m.intensity with
        | some i => decide (7 ≤ i)
        | none => false).length ≥ 2
  let recent_intensities : List Int := (lastN 5 (messages.map (·.intensity))).filterMap id
  let ruleC :=
    recent_intensities ≠ [] ∧ 7 * (recent_intensities.length : ℤ) ≤ recent_intensities.sum
  decide (ruleA ∨ ruleB ∨ ruleC)

/-! ### Theme storage and theme parsing

`KhayalDatabase.store_user_message` (the production `database.py`)
serialises themes as `','.join(themes)` (and NULL for an empty or
missing list), while `SemanticMemory.detect_patterns` decodes the
stored field with `json.loads` and silently drops it when decoding
fails.  The earlier `database-old.py` serialised themes with
`json.dumps` (its schema comments the column as a JSON array). -/

/-- Theme serialisation of the production `store_user_message`:
`','.join(themes) if themes else None`. -/
def encodeThemesCsv (themes : List String) : Option String :=
  if themes = [] then none else some (String.intercalate "," themes)

/-- Theme serialisation of `database-old.py`'s `store_user_message`:
`json.dumps(themes) if themes else None`.  String escaping is elided:
theme words stored by this code base contain no quotes or
backslashes. -/
def encodeThemesJson (themes : List String) : Option String :=
  if themes = [] then none
  else some ("[" ++ String.intercalate ", " (themes.map fun s => "\"" ++ s ++ "\"") ++ "]")

/-- JSON tokens sufficient for the theme field: brackets, commas and
double-quoted strings. -/
inductive JTok where
  | lb
  | rb
  | comma
  | strTok (s : String)
deriving DecidableEq

/-- Scan a double-quoted string body up to the closing quote
(escape sequences elided: no stored theme contains them). -/
def scanQuoted : List Char → Option (List Char × List Char)
  | [] => none
  | c :: rest =>
    if c = '"' then some ([], rest)
    else (scanQuoted rest).map fun p => (c :: p.1, p.2)

/-- JSON whitespace. -/
def isJsonWs (c : Char) : Bool := c = ' ' || c = '\t' || c = '\n' || c = '\r'

/-- Fuel-driven lexer for the token set above; any other character is
a lexical error (as in `json.loads`). -/
def jsonLexF : Nat → List Char → Option (List JTok)
  | 0, _ => none
  | _ + 1, [] => some []
  | fuel + 1, c :: rest =>
    if isJsonWs c then jsonLexF fuel rest
    else if c = '[' then (jsonLexF fuel rest).map (JTok.lb :: ·)
    else if c = ']' then (jsonLexF fuel rest).map (JTok.rb :: ·)
    else if c = ',' then (jsonLexF fuel rest).map (JTok.comma :: ·)
    else if c = '"' then
      match scanQuoted rest with
      | some (body, r) => (jsonLexF fuel r).map (JTok.strTok (String.mk body) :: ·)
      | none => none
    else none

/-- Lexer entry point (fuel bounded by the input length). -/
def jsonLex (cs : List Char) : Option (List JTok) := jsonLexF (cs.length + 1) cs

/-- Parse the tail of a JSON string array after its first element:
`(',' string)* ']'` with nothing after the closing bracket. -/
def jsonArrayTail : List JTok → Option (List String)
  | [JTok.rb] => some []
  | JTok.comma :: JTok.strTok s :: rest => (jsonArrayTail rest).map (s :: ·)
  | _ => none

/-- `json.loads` restricted to the shape the pattern engine consumes:
a JSON array of strings.  Inputs that are not valid JSON (such as the
comma-joined theme text the production writer stores) yield `none`,
exactly as `json.loads` raises and `detect_patterns` drops the field.
(Other JSON shapes are not modelled: no writer in this repository
stores them in the themes column.) -/
def jsonLoadsStringArray (cs : List Char) : Option (List String) :=
  match jsonLex cs with
  | some [JTok.lb, JTok.rb] => some []
  | some (JTok.lb :: JTok.strTok s :: rest) => (jsonArrayTail rest).map (s :: ·)
  | _ => none

/-- The theme-collection loop of `SemanticMemory.detect_patterns`:
skip NULL/empty fields, decode with `json.loads`, and silently skip
rows whose stored text fails to decode. -/
def collectThemes (rows : List PatternRow) : List String :=
  rows.foldl
    (fun all_themes m =>
      match m.themes with
      | none => all_themes
      | some ts =>
        if ts = "" then all_themes
        else
          match jsonLoadsStringArray ts.data with
          | some themes => all_themes ++ themes
          | none => all_themes)
    []

/-- The themes the pattern engine recovers from one stored field. -/
def themesReadByPatternEngine (stored : Option String) : List String :=
  collectThemes [⟨"neutral", some 5, stored⟩]

/-! ## Onboarding state machine (`onboarding.py`)

The time-preference parser applies three Python regular expressions in
order: `(\d{1,2}):(\d{2})\s*(am|pm)?`, then `(\d{1,2})\s*(am|pm)`,
then the full match `^\d{1,2}$`.  They are modelled by leftmost-match
scanners with the greedy one-or-two-digit backtracking of the `re`
engine. -/

/-- Value of an ASCII digit. -/
def digitVal (c : Char) : Nat := c.toNat - 48

/-- Match the optional `(am|pm)` group at a position of a lowercased
string; `some true` is `pm`, `some false` is `am`. -/
def matchAmPm : List Char → Option Bool
  | 'a' :: 'm' :: _ => some false
  | 'p' :: 'm' :: _ => some true
  | _ => none

/-- Match `:(\d{2})\s*(am|pm)?` (the part of the first regex after the
hour group). -/
def matchColonAfterHour : List Char → Option (Nat × Option Bool)
  | ':' :: d1 :: d2 :: rest =>
    if d1.isDigit ∧ d2.isDigit then
      some (10 * digitVal d1 + digitVal d2, matchAmPm (rest.dropWhile isPySpace))
    else none
  | _ => none

/-- Match `(\d{1,2}):(\d{2})\s*(am|pm)?` anchored at the current
position, with the greedy two-digit hour tried before the one-digit
hour. -/
def matchColonAt : List Char → Option (Nat × Nat × Option Bool)
  | [] => none
  | d1 :: rest =>
    if d1.isDigit then
      match rest with
      | [] => none
      | d2 :: rest2 =>
        if d2.isDigit then
          match matchColonAfterHour rest2 with
          | some (m, p) => some (10 * digitVal d1 + digitVal d2, m, p)
          | none =>
            match matchColonAfterHour (d2 :: rest2) with
            | some (m, p) => some (digitVal d1, m, p)
            | none => none
        else
          match matchColonAfterHour (d2 :: rest2) with
          | some (m, p) => some (digitVal d1, m, p)
          | none => none
    else none

/-- `re.search` of the first time regex: leftmost anchored match. -/
def searchColon : List Char → Option (Nat × Nat × Option Bool)
  | [] => none
  | c :: rest =>
    match matchColonAt (c :: rest) with
    | some r => some r
    | none => searchColon rest

/-- Match `(\d{1,2})\s*(am|pm)` anchored at the current position. -/
def matchHourAmPmAt : List Char → Option (Nat × Bool)
  | [] => none
  | d1 :: rest =>
    if d1.isDigit then
      match rest with
      | [] => none
      | d2 :: rest2 =>
        if d2.isDigit then
          match matchAmPm (rest2.dropWhile isPySpace) with
          | some p => some (10 * digitVal d1 + digitVal d2, p)
          | none =>
            match matchAmPm ((d2 :: rest2).dropWhile isPySpace) with
            | some p => some (digitVal d1, p)
            | none => none
        else
          match matchAmPm ((d2 :: rest2).dropWhile isPySpace) with
          | some p => some (digitVal d1, p)
          | none => none
    else none

/-- `re.search` of the second time regex: leftmost anchored match. -/
def searchHourAmPm : List Char → Option (Nat × Bool)
  | [] => none
  | c :: rest =>
    match matchHourAmPmAt (c :: rest) with
    | some r => some r
    | none => searchHourAmPm rest

/-- The full match `^\d{1,2}$`. -/
def bareHour : List Char → Option Nat
  | [d] => if d.isDigit then some (digitVal d) else none
  | [d1, d2] =>
    if d1.isDigit ∧ d2.isDigit then some (10 * digitVal d1 + digitVal d2) else none
  | _ => none

/-- The am/pm hour adjustment shared by the first two regex branches
(`pm` below 12 adds 12, `12am` becomes 0, a missing period leaves the
hour unchanged). -/
def adjustHour (hour : Nat) (period : Option Bool) : Nat :=
  if period = some true ∧ hour < 12 then hour + 12
  else if period = some false ∧ hour = 12 then 0
  else hour

/-- Python `f"{n:02d}"` for the values produced here. -/
def fmtTwo (n : Nat) : String := if n < 10 then "0" ++ toString n else toString n

/-- `f"{hour:02d}:{minute:02d}"`. -/
def fmtHM (hour minute : Nat) : String := fmtTwo hour ++ ":" ++ fmtTwo minute

/-- `OnboardingManager._parse_time_preference`: affirmative words map
to the default `22:00`; then the three regexes fire in order, each
guarded by the source's range check and falling through to the next on
failure; anything else falls back to `22:00`. -/
def parseTimePreference (time_str : List Char) : String :=
  let t := pyStrip (pyLower time_str)
  if containsSub t "yes".data || containsSub t "ok".data || containsSub t "fine".data then
    "22:00"
  else
    let r1 :=
      match searchColon t with
      | some (h0, minute, period) =>
        let hour := adjustHour h0 period
        if hour ≤ 23 ∧ minute ≤ 59 then some (fmtHM hour minute) else none
      | none => none
    match r1 with
    | some s => s
    | none =>
      let r2 :=
        match searchHourAmPm t with
        | some (h0, period) =>
          let hour := adjustHour h0 (some period)
          if hour ≤ 23 then some (fmtHM hour 0) else none
        | none => none
      match r2 with
      | some s => s
      | none =>
        match bareHour t with
        | some h0 =>
          let hour := if 1 ≤ h0 ∧ h0 ≤ 11 then h0 + 12 else h0
          if hour ≤ 23 then fmtHM hour 0 else "22:00"
        | none => "22:00"

/-- The per-user `user_preferences` row, restricted to the fields the
onboarding logic reads and writes (`summary_enabled`, `timezone` and
the timestamps never influence control flow). -/
structure PrefRow where
  name : Option String
  language_preference : String
  summary_time : String
  onboarding_complete : Bool
  onboarding_step : Int
deriving DecidableEq

/-- The column defaults of the `user_preferences` schema, as the row
created by `get_onboarding_step`'s lazy INSERT. -/
def defaultPrefRow : PrefRow :=
  { name := none, language_preference := "mixed", summary_time := "22:00",
    onboarding_complete := false, onboarding_step := 0 }

/-- `OnboardingManager.is_onboarding_complete`: no row means
incomplete; otherwise the completion flag AND `step = -1` must agree. -/
def isOnboardingComplete (row : Option PrefRow) : Bool :=
  match row with
  | none => false
  | some r => r.onboarding_complete && decide (r.onboarding_step = -1)

/-- `OnboardingManager.get_onboarding_step`: a row whose completion
flag is set always yields `-1`; otherwise the stored step; a missing
row is created at step 0. -/
def getOnboardingStep (row : Option PrefRow) : Int :=
  match row with
  | some r => if r.onboarding_complete then -1 else r.onboarding_step
  | none => 0

/-- Step-0 onboarding message (`get_onboarding_message[0]`). -/
def onboardingMessage0 : String :=
  "Hey! I" ++ apostrophe ++
  "m Khayal 🌙\n\nThink of me as your journaling companion - someone who listens, remembers, and cares.\n\nShare how you" ++
  apostrophe ++ "re feeling anytime, and I" ++ apostrophe ++
  "ll be here.\n\nEvery night at 10 PM, I" ++ apostrophe ++
  "ll send you a warm summary of your day to help you reflect.\n\nSound good? 😊\n\n(Reply with anything to continue)"

/-- Step-1 onboarding message (`get_onboarding_message[1]`). -/
def onboardingMessage1 : String :=
  "Great! I" ++ apostrophe ++
  "m excited to get to know you.\n\nWhat should I call you? \n\n(Your first name or nickname is perfect)"

/-- Step-2 onboarding message with the `{name}` placeholder
substituted. -/
def onboardingMessage2 (name : String) : String :=
  "Nice to meet you, " ++ name ++ "! \n\nI" ++ apostrophe ++
  "ll send you a daily summary at 10 PM by default. Does that time work for you?\n\nReply:\n• \"Yes\" to keep 10 PM\n• Or tell me your preferred time (like \"9 PM\" or \"11:30 PM\")"

/-- Step-3 onboarding message (`get_onboarding_message[3]`). -/
def onboardingMessage3 : String :=
  "Perfect! ✅\n\nOne more thing - how would you like me to talk?\n\nReply with:\n• \"English\" - mostly English\n• \"Urdu/Hindi\" - mostly Hindi/Urdu\n• \"Mixed\" - natural mix (recommended)\n\n(You can always change this later by saying \"settings\")"

/-- Step-4 onboarding message with the `{time}` placeholder
substituted. -/
def onboardingMessage4 (time : String) : String :=
  "All set! 🎉\n\nFrom now on:\n• Message me anytime about how you" ++ apostrophe ++
  "re feeling\n• I" ++ apostrophe ++
  "ll listen and respond with care\n• Every night at " ++ time ++ ", I" ++ apostrophe ++
  "ll send a summary of your day\n• Say \"settings\" anytime to change preferences\n• Say \"help\" if you need guidance\n\nPrivacy note: Your messages are stored privately and never shared. You can delete everything anytime by saying \"delete my data\".\n\nSo... kya haal hai? How are you feeling today? 😊"

/-- The fall-through reply of `process_onboarding_response` for any
step outside `0..3`. -/
def startOverMessage : String :=
  "Sorry, something went wrong. Let" ++ apostrophe ++ "s start over! What" ++ apostrophe ++
  "s your name?"

/-- The value returned by `process_onboarding_response`. -/
structure OnbResult where
  message : String
  next_step : Int
  complete : Bool
deriving DecidableEq

/-- Digits to a natural number (Python `int` on the digit strings the
stored `HH:MM` values contain). -/
def natFromDigits (cs : List Char) : Nat :=
  cs.foldl (fun acc c => 10 * acc + digitVal c) 0

/-- `time_str.split(':')` for the two-part `HH:MM` values the parser
stores. -/
def splitAtColon (cs : List Char) : List Char × List Char :=
  (cs.takeWhile (· ≠ ':'), (cs.dropWhile (· ≠ ':')).drop 1)

/-- The 12-hour display formatting of the confirmed summary time in
the step-3 branch of `process_onboarding_response`
(`int(hour) % 12 or 12` and the AM/PM suffix). -/
def timeDisplay (time_str : String) : String :=
  let parts := splitAtColon time_str.data
  let h := natFromDigits parts.1
  let disp := if h % 12 = 0 then 12 else h % 12
  let suffix := if h ≥ 12 then "PM" else "AM"
  if parts.2 = "00".data then toString disp ++ " " ++ suffix
  else toString disp ++ ":" ++ String.mk parts.2 ++ " " ++ suffix

/-- `OnboardingManager.process_onboarding_response`: one onboarding
turn, returning the reply and the updated preference row (the
`set_preference` / `set_onboarding_step` / `complete_onboarding`
writes).  Any step outside `0..3` falls through to the start-over
reply without touching the stored row. -/
def processOnboardingResponse (user_response : String) (current_step : Int)
    (st : PrefRow) : OnbResult × PrefRow :=
  let response_lower := pyStrip (pyLower user_response.data)
  if current_step = 0 then
    (⟨onboardingMessage1, 1, false⟩, { st with onboarding_step := 1 })
  else if current_step = 1 then
    let name := String.mk ((pyStrip user_response.data).take 50)
    (⟨onboardingMessage2 name, 2, false⟩,
      { st with name := some name, onboarding_step := 2 })
  else if current_step = 2 then
    let summary_time := parseTimePreference response_lower
    (⟨onboardingMessage3, 3, false⟩,
      { st with summary_time := summary_time, onboarding_step := 3 })
  else if current_step = 3 then
    let lang :=
      if containsSub response_lower "english".data then "english"
      else if containsSub response_lower "hindi".data ||
          containsSub response_lower "urdu".data then "hindi"
      else "mixed"
    let st' :=
      { st with language_preference := lang, onboarding_complete := true,
                onboarding_step := -1 }
    (⟨onboardingMessage4 (timeDisplay st'.summary_time), -1, true⟩, st')
  else
    (⟨startOverMessage, 1, false⟩, st)

/-! ## Conversation dispatcher (`whatsapp_webhook_v4.py` /
`khayal/routes/webhook.py`, `handle_incoming_message`; the two copies
implement the identical per-message flow) -/

/-- Observable actions of one dispatcher turn, in execution order:
the read receipt, the external classifier/generator invocations, the
outbound sends, and the message-store writes. -/
inductive Event where
  | markRead (messageId : String)
  | crisisCheck (text : String)
  | moodCheck (text : String)
  | patternsCheck
  | replyGen
  | send (recipient : String) (text : String)
  | storeUser (userId : Nat) (content : String) (mood : Option String)
      (intensity : Option Int) (themes : List String) (needsSupport : Bool)
  | storeKhayal (userId : Nat) (content : String)
deriving DecidableEq

/-- Outcomes of the external calls a single turn can make. -/
structure Oracles where
  crisisLLM : Option CrisisJson
  moodLLM : Option MoodJson
  replyLLM : Option String

/-- The fixed fallback of `get_khayal_response` when reply generation
fails. -/
def fallbackReply : String :=
  "Arrey, kuch technical issue ho gaya. Thoda baad mein try karo? 🙏"

/-- The fixed notice for non-text message types. -/
def unsupportedTypeMessage : String :=
  "Hey! I work best with text messages. Voice notes coming soon! 😊"

/-- The `type == "text"` path of `handle_incoming_message` after user
resolution: onboarding check, crisis short-circuit, or the normal
mood-aware flow, as the ordered list of observable actions. -/
def handleTextMessage (userId : Nat) (fromNumber messageId text : String)
    (prefs : Option PrefRow) (o : Oracles) : List Event :=
  let pre := [Event.markRead messageId]
  let onboarding_complete := isOnboardingComplete prefs
  let current_step := getOnboardingStep prefs
  if onboarding_complete = false then
    let result := (processOnboardingResponse text current_step (prefs.getD defaultPrefRow)).1
    pre ++ [Event.send fromNumber result.message]
  else
    let crisis_data := detectCrisis text o.crisisLLM
    let evs := pre ++ [Event.crisisCheck text]
    if crisis_data.should_escalate then
      let crisis_response := getCrisisResponse crisis_data.crisis_type "IN"
      evs ++
        [Event.send fromNumber crisis_response.message,
         Event.storeUser userId text (some "crisis") (some 10)
           ["crisis", crisis_data.crisis_type] true]
    else
      let mood_data := analyzeMood o.moodLLM
      let khayal_response := o.replyLLM.getD fallbackReply
      evs ++
        [Event.moodCheck text, Event.patternsCheck,
         Event.storeUser userId text (some mood_data.mood) (some mood_data.intensity)
           mood_data.themes mood_data.needs_support,
         Event.replyGen, Event.storeKhayal userId khayal_response,
         Event.send fromNumber khayal_response]

/-- `handle_incoming_message` after payload extraction: text messages
run the full pipeline, any other type gets the fixed notice and no
persistence. -/
def handleIncomingMessage (userId : Nat) (fromNumber messageId messageType text : String)
    (prefs : Option PrefRow) (o : Oracles) : List Event :=
  if messageType = "text" then handleTextMessage userId fromNumber messageId text prefs o
  else [Event.send fromNumber unsupportedTypeMessage]

/-- Recognisers used to count sends and stores in a trace. -/
def Event.isSend : Event → Bool
  | Event.send _ _ => true
  | _ => false

/-- Recogniser for user-message store events. -/
def Event.isStoreUser : Event → Bool
  | Event.storeUser _ _ _ _ _ _ => true
  | _ => false

/-- Recogniser for mood-classifier invocations. -/
def Event.isMoodCheck : Event → Bool
  | Event.moodCheck _ => true
  | _ => false

/-- Recogniser for reply-generator invocations. -/
def Event.isReplyGen : Event → Bool
  | Event.replyGen => true
  | _ => false

/-- Recogniser for assistant-message store events. -/
def Event.isStoreKhayal : Event → Bool
  | Event.storeKhayal _ _ => true
  | _ => false

/-! ## Daily summary generator (`summary_generator-old.py`,
`DailySummaryGenerator`) -/

/-- One row of `get_messages_for_date`: `message_type` distinguishes
`user` from `khayal` rows, `mood`/`intensity` may be NULL, and the
hour is the one `datetime.fromisoformat(msg['timestamp']).hour`
extracts. -/
structure DayMsg where
  message_type : String
  content : String
  mood : Option String
  intensity : Option Int
  hour : Nat
deriving DecidableEq

/-- A period entry of the emotional arc (`_get_period_mood` result). -/
structure PeriodMood where
  mood : String
  intensity : ℚ
deriving DecidableEq

/-- A key moment collected by `_analyze_emotional_arc`. -/
structure KeyMoment where
  content : String
  mood : Option String
  intensity : Option Int
deriving DecidableEq

/-- The emotional arc of `_analyze_emotional_arc`. -/
structure EmotionalArc where
  morning : Option PeriodMood
  afternoon : Option PeriodMood
  evening : Option PeriodMood
  trend : String
  key_moments : List KeyMoment
deriving DecidableEq

/-- Python `round(x, 1)`.  At exact half-tenths Python uses banker's
rounding while this model rounds the tie up; the rounded value only
feeds the ±1 trend comparison and the displayed intensity, and no
claim settled here depends on a tie. -/
def round1 (q : ℚ) : ℚ := ((round (q * 10) : ℤ) : ℚ) / 10

/-- `moods.count x`. -/
def countOcc (l : List String) (x : String) : Nat := (l.filter (· == x)).length

/-- `max(set(moods), key=moods.count)`.  Python iterates over the set
in an implementation-defined order; ties are modelled as
first-occurrence-wins. -/
def dominantOf (l : List String) : String :=
  l.foldl (fun best x => if countOcc l best < countOcc l x then x else best) (l.headD "")

/-- `DailySummaryGenerator._get_period_mood`: `None` for an empty
period or one with no mood-tagged rows; otherwise the dominant mood
and the rounded average of `msg.get('intensity', 5)`.  A mood-tagged
row whose intensity is NULL makes the Python `sum` raise a
`TypeError` (`.get` returns the present `None`, not the default),
modelled as `.error`. -/
def getPeriodMood (messages : List DayMsg) : Except Unit (Option PeriodMood) :=
  if messages = [] then .ok none
  else
    let mood_messages := messages.filter (·.mood.isSome)
    if mood_messages = [] then .ok none
    else if mood_messages.all (·.intensity.isSome) then
      let moods := mood_messages.filterMap (·.mood)
      let intensities : List Int := mood_messages.filterMap (·.intensity)
      let dominant_mood := dominantOf moods
      let avg_intensity : ℚ := (intensities.sum : ℚ) / (intensities.length : ℚ)
      .ok (some ⟨dominant_mood, round1 avg_intensity⟩)
    else .error ()

/-- The `[:50] + "..."` truncation of a key moment's content. -/
def truncContent (s : String) : String :=
  if 50 < s.data.length then String.mk (s.data.take 50) ++ "..." else s

/-- The key-moment collection loop of `_analyze_emotional_arc`
(`msg.get('intensity', 0) >= 7`, top 3 in message order).  A NULL
intensity makes the Python comparison raise a `TypeError`, modelled
as `.error`. -/
def keyMomentsOf (messages : List DayMsg) : Except Unit (List KeyMoment) :=
  if messages.all (·.intensity.isSome) then
    .ok ((((messages.filter fun m =>
        match m.intensity with
        | some i => decide (7 ≤ i)
        | none => false).map
      fun m => KeyMoment.mk (truncContent m.content) m.mood m.intensity)).take 3)
  else .error ()

/-- The first-versus-last comparison over the non-null period moods
(`trend` in `_analyze_emotional_arc`; note that in this generator a
higher later intensity reads as `improving`). -/
def arcTrend (moods_present : List PeriodMood) : String :=
  match moods_present with
  | p0 :: _ :: _ =>
    let first_intensity := p0.intensity
    let last_intensity := (moods_present.getLastD p0).intensity
    if last_intensity > first_intensity + 1 then "improving"
    else if last_intensity < first_intensity - 1 then "declining"
    else "stable"
  | _ => "stable"

/-- `DailySummaryGenerator._analyze_emotional_arc`: bucket the day's
user messages into morning (05–12h), afternoon (12–17h) and evening
(17–22h), compute each bucket's period mood, derive the coarse trend,
and collect up to three key moments. -/
def analyzeEmotionalArc (messages : List DayMsg) : Except Unit EmotionalArc :=
  let morning_msgs := messages.filter fun m => decide (5 ≤ m.hour ∧ m.hour < 12)
  let afternoon_msgs := messages.filter fun m => decide (12 ≤ m.hour ∧ m.hour < 17)
  let evening_msgs := messages.filter fun m => decide (17 ≤ m.hour ∧ m.hour < 22)
  match getPeriodMood morning_msgs, getPeriodMood afternoon_msgs,
      getPeriodMood evening_msgs, keyMomentsOf messages with
  | .ok morning_mood, .ok afternoon_mood, .ok evening_mood, .ok key_moments =>
    let moods_present := [morning_mood, afternoon_mood, evening_mood].filterMap id
    .ok ⟨morning_mood, afternoon_mood, evening_mood, arcTrend moods_present, key_moments⟩
  | _, _, _, _ => .error ()

/-- `DailySummaryGenerator._generate_fallback_summary`. -/
def generateFallbackSummary (arc : EmotionalArc) : String :=
  let mid :=
    if arc.trend = "improving" then "Things seemed to get better as the day went on ✨"
    else if arc.trend = "declining" then "The day had its challenges."
    else "You made it through the day."
  "Aaj ka din kaisa tha?" ++ "\n\n" ++ mid ++ "\n\n" ++ "Kal is a new day. Sleep well 💜"

/-- `DailySummaryGenerator._generate_summary_text`: the stripped
generation-call output, or the fallback summary when the call raises
— in either case a non-null string. -/
def generateSummaryText (llm : Option String) (arc : EmotionalArc) : String :=
  match llm with
  | some s => s
  | none => generateFallbackSummary arc

/-- The value returned by `generate_daily_summary`; the
below-threshold branch returns the empty arc `{}` (modelled `none`). -/
structure SummaryResult where
  summary : Option String
  emotional_arc : Option EmotionalArc
  message_count : Nat
  should_send : Bool
deriving DecidableEq

/-- `DailySummaryGenerator.generate_daily_summary` on the day's
fetched rows: filter the user-authored rows, stop with
`should_send=False` below 2 of them, otherwise build the arc and the
summary text. -/
def generateDailySummary (messages : List DayMsg) (llm : Option String) :
    Except Unit SummaryResult :=
  let user_messages := messages.filter (·.message_type == "user")
  if user_messages.length < 2 then
    .ok ⟨none, none, user_messages.length, false⟩
  else
    match analyzeEmotionalArc user_messages with
    | .ok emotional_arc =>
      .ok ⟨some (generateSummaryText llm emotional_arc), some emotional_arc,
           user_messages.length, true⟩
    | .error e => .error e

/-! ## Message persistence (`database.py`) -/

/-- The datastore failures of the spec's error taxonomy. -/
inductive DbFailure where
  | connectionError
  | constraintViolation
deriving DecidableEq

/-- Observable connection-level steps of one database operation. -/
inductive DbStep where
  | runStatements
  | commitTx
  | rollbackTx
  | closeConn
deriving DecidableEq

/-- `KhayalDatabase.store_user_message`, as the step trace paired with
the exception the caller observes (`none` = normal return).  Its
`except` block prints, rolls back and falls through to `finally`
without re-raising, so the caller sees a normal return whether or not
the INSERT/commit raised. -/
def storeUserMessage (failure : Option DbFailure) : List DbStep × Option DbFailure :=
  match failure with
  | none => ([DbStep.runStatements, DbStep.commitTx, DbStep.closeConn], none)
  | some _ => ([DbStep.runStatements, DbStep.rollbackTx, DbStep.closeConn], none)

/-- `KhayalDatabase.get_or_create_user`: same shape, but its `except`
block ends in `raise`, re-raising the failure to the caller (the
commit step belongs to the create path). -/
def getOrCreateUser (failure : Option DbFailure) : List DbStep × Option DbFailure :=
  match failure with
  | none => ([DbStep.runStatements, DbStep.commitTx, DbStep.closeConn], none)
  | some f => ([DbStep.runStatements, DbStep.rollbackTx, DbStep.closeConn], some f)

/-! ## Shared helper lemmas -/

/-- `a ≤ s / k` for a positive natural denominator, cross-multiplied. -/
theorem rat_le_div_iff (s : ℤ) (k : ℕ) (hk : 0 < k) (a : ℤ) :
    ((a : ℚ) ≤ (s : ℚ) / (k : ℚ)) ↔ a * k ≤ s := by
  have hk' : (0 : ℚ) < (k : ℚ) := by exact_mod_cast hk
  rw [le_div_iff₀ hk']
  exact_mod_cast Iff.rfl
/-- The difference of two integer averages as a single fraction. -/
theorem avg_diff_as_frac (a b : ℤ) (q p : ℕ) (hq : 0 < q) (hp : 0 < p) :
    (b : ℚ) / (p : ℚ) - (a : ℚ) / (q : ℚ) =
      ((b * q - a * p : ℤ) : ℚ) / ((q * p : ℕ) : ℚ) := by
  have hq' : ((q : ℚ)) ≠ 0 := by positivity
  have hp' : ((p : ℚ)) ≠ 0 := by positivity
  push_cast
  field_simp
  ring
/-- The `intensifying` threshold of `_analyze_trend`, cross-multiplied. -/
theorem rat_avg_diff_gt (a b : ℤ) (q p : ℕ) (hq : 0 < q) (hp : 0 < p) :
    ((b : ℚ) / (p : ℚ) - (a : ℚ) / (q : ℚ) > 3 / 2) ↔
      3 * ((q : ℤ) * (p : ℤ)) < 2 * (b * q - a * p) := by
  have hqp : (0 : ℚ) < ((q * p : ℕ) : ℚ) := by positivity
  rw [gt_iff_lt, avg_diff_as_frac a b q p hq hp, lt_div_iff₀ hqp]
  constructor <;> intro h
  · have h2 : (3 : ℚ) * ((q : ℚ) * (p : ℚ)) < 2 * ((b : ℚ) * q - (a : ℚ) * p) := by
      push_cast at h
      linarith
    exact_mod_cast h2
  · have h2 : (3 : ℚ) * ((q : ℚ) * (p : ℚ)) < 2 * ((b : ℚ) * q - (a : ℚ) * p) := by
      exact_mod_cast h
    push_cast
    linarith
/-- The `improving` threshold of `_analyze_trend`, cross-multiplied. -/
theorem rat_avg_diff_lt (a b : ℤ) (q p : ℕ) (hq : 0 < q) (hp : 0 < p) :
    ((b : ℚ) / (p : ℚ) - (a : ℚ) / (q : ℚ) < -(3 / 2)) ↔
      2 * (b * q - a * p) < -(3 * ((q : ℤ) * (p : ℤ))) := by
  have hqp : (0 : ℚ) < ((q * p : ℕ) : ℚ) := by positivity
  rw [avg_diff_as_frac a b q p hq hp, div_lt_iff₀ hqp]
  constructor <;> intro h
  · have h2 : (2 : ℚ) * ((b : ℚ) * q - (a : ℚ) * p) < -(3 * ((q : ℚ) * (p : ℚ))) := by
      push_cast at h
      linarith
    exact_mod_cast h2
  · have h2 : (2 : ℚ) * ((b : ℚ) * q - (a : ℚ) * p) < -(3 * ((q : ℚ) * (p : ℚ))) := by
      exact_mod_cast h
    push_cast
    linarith
/-- `analyzeTrend` agrees with its cross-multiplied form. -/
theorem analyzeTrend_eq_int (l : List Int) : analyzeTrend l = analyzeTrendInt l := by
  simp only [analyzeTrend, analyzeTrendInt]
  by_cases h : l.length < 3
  · simp [h]
  · have hq : 0 < l.length / 2 := by omega
    have hp : 0 < l.length - l.length / 2 := by omega
    simp only [h, if_false]
    exact if_congr
      (rat_avg_diff_gt (l.take (l.length / 2)).sum (l.drop (l.length / 2)).sum
        (l.length / 2) (l.length - l.length / 2) hq hp)
      rfl
      (if_congr
        (rat_avg_diff_lt (l.take (l.length / 2)).sum (l.drop (l.length / 2)).sum
          (l.length / 2) (l.length - l.length / 2) hq hp)
        rfl rfl)
/-- The average clause rewritten with integers (helper for the two
equality lemmas below). -/
theorem avg_clause_iff (l : List Int) (h : l ≠ []) :
    ((l.sum : ℚ) / (l.length : ℚ) ≥ 7) ↔ 7 * (l.length : ℤ) ≤ l.sum := by
  have hl : 0 < l.length := List.length_pos.mpr h
  have := rat_le_div_iff l.sum l.length hl 7
  rw [ge_iff_le]
  exact_mod_cast this
/-- `needsAttention` agrees with its cross-multiplied form. -/
theorem needsAttention_eq_int (messages : List PatternRow) :
    needsAttention messages = needsAttentionInt messages := by
  simp only [needsAttention, needsAttentionInt]
  refine if_congr Iff.rfl rfl (if_congr Iff.rfl rfl (if_congr ?_ rfl rfl))
  exact and_congr_right fun _ => and_congr_right fun hne => avg_clause_iff _ hne
/-- `needsAttentionClaim` agrees with its cross-multiplied form. -/
theorem needsAttentionClaim_eq_int (messages : List PatternRow) :
    needsAttentionClaim messages = needsAttentionClaimInt messages := by
  simp only [needsAttentionClaim, needsAttentionClaimInt, decide_eq_decide]
  exact or_congr Iff.rfl (or_congr Iff.rfl
    (and_congr_right fun hne => avg_clause_iff _ hne))

/-- A three-way boolean if-chain is true exactly when one of its
conditions holds. -/
theorem ite_chain3_eq_true_iff (p q r : Prop) [Decidable p] [Decidable q] [Decidable r] :
    ((if p then true else if q then true else if r then true else false) = true) ↔
      p ∨ q ∨ r := by
  split_ifs <;> simp_all

/-- Python `l[-5:][-3:] = l[-3:]`. -/
theorem lastN_lastN (l : List α) : lastN 3 (lastN 5 l) = lastN 3 l := by
  simp only [lastN, List.drop_drop, List.length_drop]
  congr 1
  omega

/-- `len(l[-5:]) >= 3` holds exactly when `len(l) >= 3`. -/
theorem lastN5_length_ge3 (l : List α) : (lastN 5 l).length ≥ 3 ↔ 3 ≤ l.length := by
  simp only [lastN, List.length_drop]
  omega

/-- `len(l.map f) >= 5` holds exactly when `len(l) >= 5`. -/
theorem map_length_ge5 (l : List PatternRow) :
    (l.map (·.intensity)).length ≥ 5 ↔ 5 ≤ l.length := by
  simp [List.length_map]

/-- `_get_period_mood` returns normally whenever every message in the
period has a non-null intensity. -/
theorem getPeriodMood_ok (msgs : List DayMsg) (h : ∀ m ∈ msgs, m.intensity.isSome) :
    ∃ v, getPeriodMood msgs = .ok v := by
  unfold getPeriodMood
  dsimp only
  split_ifs with h0 h1 h2
  · exact ⟨none, rfl⟩
  · exact ⟨none, rfl⟩
  · exact ⟨_, rfl⟩
  · refine absurd ?_ h2
    rw [List.all_eq_true]
    intro m hm
    exact h m (List.mem_of_mem_filter hm)

/-- The key-moment loop returns normally whenever every message has a
non-null intensity. -/
theorem keyMomentsOf_ok (msgs : List DayMsg) (h : ∀ m ∈ msgs, m.intensity.isSome) :
    ∃ v, keyMomentsOf msgs = .ok v := by
  unfold keyMomentsOf
  split_ifs with h1
  · exact ⟨_, rfl⟩
  · refine absurd ?_ h1
    rw [List.all_eq_true]
    intro m hm
    exact h m hm

/-- `_analyze_emotional_arc` returns normally whenever every message
has a non-null intensity. -/
theorem analyzeEmotionalArc_ok (msgs : List DayMsg)
    (h : ∀ m ∈ msgs, m.intensity.isSome) :
    ∃ arc, analyzeEmotionalArc msgs = .ok arc := by
  obtain ⟨v1, hv1⟩ := getPeriodMood_ok
    (msgs.filter fun m => decide (5 ≤ m.hour ∧ m.hour < 12))
    (fun m hm => h m (List.mem_of_mem_filter hm))
  obtain ⟨v2, hv2⟩ := getPeriodMood_ok
    (msgs.filter fun m => decide (12 ≤ m.hour ∧ m.hour < 17))
    (fun m hm => h m (List.mem_of_mem_filter hm))
  obtain ⟨v3, hv3⟩ := getPeriodMood_ok
    (msgs.filter fun m => decide (17 ≤ m.hour ∧ m.hour < 22))
    (fun m hm => h m (List.mem_of_mem_filter hm))
  obtain ⟨km, hkm⟩ := keyMomentsOf_ok msgs h
  exact ⟨⟨v1, v2, v3, arcTrend ([v1, v2, v3].filterMap id), km⟩,
    by simp only [analyzeEmotionalArc, hv1, hv2, hv3, hkm]⟩

/-! ## Claims -/

/-- C1, counterexample: for the keyword-bearing input `"I want to
die"` with a failed deep-path call, `detect_crisis` returns
`is_crisis=true` but `severity="low"`, `crisis_type="none"` and
`should_escalate=false` — not the claimed `high` / `severe_distress` /
escalation.  The failed call's fallback dictionary carries explicit
`low`/`none` values, so the `.get` defaults never apply. -/
theorem claim_C1_counterexample :
    checkKeywords "I want to die" = true ∧
    detectCrisis "I want to die" none =
      ⟨true, "low", "none", false, "gentle_support"⟩ := by decide

/-- C1, amended: for every keyword-bearing text, a failed deep-path
call yields `is_crisis=true` with `severity="low"`,
`crisis_type="none"` and `should_escalate=false`; the `high` /
`severe_distress` defaults (and the resulting escalation) apply only
when the deep path returns a parsed object missing those keys. -/
theorem claim_C1_amended (message : String) (h : checkKeywords message = true) :
    detectCrisis message none = ⟨true, "low", "none", false, "gentle_support"⟩ ∧
    detectCrisis message (some ⟨none, none, none⟩) =
      ⟨true, "high", "severe_distress", true, "supportive_resources"⟩ := by
  refine ⟨?_, ?_⟩ <;>
    · simp only [detectCrisis, llmDetectCrisis, h]
      decide

/-- C1, witness for the amended theorem at the keyword `"suicide"`. -/
theorem claim_C1_amended_witness :
    checkKeywords "suicide" = true ∧
    (detectCrisis "suicide" none = ⟨true, "low", "none", false, "gentle_support"⟩ ∧
      detectCrisis "suicide" (some ⟨none, none, none⟩) =
        ⟨true, "high", "severe_distress", true, "supportive_resources"⟩) :=
  ⟨by decide, claim_C1_amended "suicide" (by decide)⟩

/-- C2 (code bug): the production writer stores `["work","stress"]` as
the comma-joined text `"work,stress"`, which the Pattern Engine's
`json.loads` cannot decode, so the themes are silently dropped on
re-read instead of round-tripping; the superseded JSON serialisation
of `database-old.py` (documented in its schema as a JSON array, and
the format `semantic_memory.py` expects) does round-trip. -/
theorem claim_C2_roundtrip_bug :
    encodeThemesCsv ["work", "stress"] = some "work,stress" ∧
    themesReadByPatternEngine (encodeThemesCsv ["work", "stress"]) = [] ∧
    themesReadByPatternEngine (encodeThemesJson ["work", "stress"]) = ["work", "stress"] := by
  decide

/-- C3 (code bug): on any datastore failure `store_user_message` rolls
back but swallows the exception and returns normally (second component
`none`), while its sibling `get_or_create_user` re-raises as the spec
demands of persistence writes. -/
theorem claim_C3_swallowed_failure :
    (∀ f : DbFailure, storeUserMessage (some f) =
      ([DbStep.runStatements, DbStep.rollbackTx, DbStep.closeConn], none)) ∧
    (∀ f : DbFailure, getOrCreateUser (some f) =
      ([DbStep.runStatements, DbStep.rollbackTx, DbStep.closeConn], some f)) :=
  ⟨fun _ => rfl, fun _ => rfl⟩

/-- C4, counterexample: a classification call whose parsed output
carries `intensity: 15` (raw text `{"intensity": 15}`) passes through
`analyze` unvalidated, so the returned intensity lies outside
`[1,10]`. -/
theorem claim_C4_counterexample :
    (analyzeMood (some ⟨none, some 15, none, none, none⟩)).intensity = 15 ∧
    ¬(analyzeMood (some ⟨none, some 15, none, none, none⟩)).intensity ≤ 10 := by
  decide

/-- C4, amended: the `[1,10]` guarantee holds when the call or its
parsing fails (the fixed default, intensity 5) and when the parsed
output omits the intensity key (`setdefault` 5); a present intensity
value is returned verbatim with no range check. -/
theorem claim_C4_amended :
    (analyzeMood none = getDefaultMood ∧
      1 ≤ (analyzeMood none).intensity ∧ (analyzeMood none).intensity ≤ 10) ∧
    (∀ j : MoodJson, j.intensity = none →
      (analyzeMood (some j)).intensity = 5) ∧
    (∀ j : MoodJson, ∀ i : Int, j.intensity = some i →
      (analyzeMood (some j)).intensity = i) := by
  refine ⟨⟨rfl, by decide, by decide⟩, ?_, ?_⟩
  · intro j hj
    simp [analyzeMood, hj]
  · intro j i hj
    simp [analyzeMood, hj]

/-- C4, witness for the amended theorem: a parsed object without an
intensity key defaults to 5, one carrying 42 returns 42. -/
theorem claim_C4_amended_witness :
    ((⟨none, none, none, none, none⟩ : MoodJson).intensity = none ∧
      (analyzeMood (some ⟨none, none, none, none, none⟩)).intensity = 5) ∧
    ((⟨none, some 42, none, none, none⟩ : MoodJson).intensity = some 42 ∧
      (analyzeMood (some ⟨none, some 42, none, none, none⟩)).intensity = 42) :=
  ⟨⟨rfl, claim_C4_amended.2.1 _ rfl⟩, ⟨rfl, claim_C4_amended.2.2 _ 42 rfl⟩⟩

/-- C5: for every onboarded user whose text message yields an
escalating crisis verdict, the dispatcher's turn contains exactly one
outbound send (the crisis resource message), exactly one stored
message tagged `mood="crisis"`, `intensity=10`,
`themes=["crisis", crisis_type]`, no assistant-message store, and no
invocation of the mood classifier or the reply generator. -/
theorem claim_C5_crisis_dispatch (userId : Nat) (fromNumber messageId text : String)
    (prefs : PrefRow) (o : Oracles)
    (hc : isOnboardingComplete (some prefs) = true)
    (he : (detectCrisis text o.crisisLLM).should_escalate = true) :
    (handleTextMessage userId fromNumber messageId text (some prefs) o).filter
        Event.isSend =
      [Event.send fromNumber
        (getCrisisResponse (detectCrisis text o.crisisLLM).crisis_type "IN").message] ∧
    (handleTextMessage userId fromNumber messageId text (some prefs) o).filter
        Event.isStoreUser =
      [Event.storeUser userId text (some "crisis") (some 10)
        ["crisis", (detectCrisis text o.crisisLLM).crisis_type] true] ∧
    (handleTextMessage userId fromNumber messageId text (some prefs) o).filter
        Event.isStoreKhayal = [] ∧
    (handleTextMessage userId fromNumber messageId text (some prefs) o).filter
        Event.isMoodCheck = [] ∧
    (handleTextMessage userId fromNumber messageId text (some prefs) o).filter
        Event.isReplyGen = [] := by
  refine ⟨?_, ?_, ?_, ?_, ?_⟩ <;>
    simp [handleTextMessage, hc, he, Event.isSend, Event.isStoreUser, Event.isStoreKhayal,
      Event.isMoodCheck, Event.isReplyGen]

/-- C5, witness: an onboarded preference row and a deep-path verdict
`{is_crisis: true, severity: "high", crisis_type: "suicidal"}`. -/
theorem claim_C5_witness :
    isOnboardingComplete (some ⟨none, "mixed", "22:00", true, -1⟩) = true ∧
    (detectCrisis "I need help"
        (some ⟨some true, some "high", some "suicidal"⟩)).should_escalate = true ∧
    ((handleTextMessage 7 "919876543210" "wamid.1" "I need help"
          (some ⟨none, "mixed", "22:00", true, -1⟩)
          ⟨some ⟨some true, some "high", some "suicidal"⟩, none, none⟩).filter
        Event.isSend =
      [Event.send "919876543210"
        (getCrisisResponse
          (detectCrisis "I need help"
            (some ⟨some true, some "high", some "suicidal"⟩)).crisis_type "IN").message] ∧
    (handleTextMessage 7 "919876543210" "wamid.1" "I need help"
          (some ⟨none, "mixed", "22:00", true, -1⟩)
          ⟨some ⟨some true, some "high", some "suicidal"⟩, none, none⟩).filter
        Event.isStoreUser =
      [Event.storeUser 7 "I need help" (some "crisis") (some 10)
        ["crisis",
          (detectCrisis "I need help"
            (some ⟨some true, some "high", some "suicidal"⟩)).crisis_type] true] ∧
    (handleTextMessage 7 "919876543210" "wamid.1" "I need help"
          (some ⟨none, "mixed", "22:00", true, -1⟩)
          ⟨some ⟨some true, some "high", some "suicidal"⟩, none, none⟩).filter
        Event.isStoreKhayal = [] ∧
    (handleTextMessage 7 "919876543210" "wamid.1" "I need help"
          (some ⟨none, "mixed", "22:00", true, -1⟩)
          ⟨some ⟨some true, some "high", some "suicidal"⟩, none, none⟩).filter
        Event.isMoodCheck = [] ∧
    (handleTextMessage 7 "919876543210" "wamid.1" "I need help"
          (some ⟨none, "mixed", "22:00", true, -1⟩)
          ⟨some ⟨some true, some "high", some "suicidal"⟩, none, none⟩).filter
        Event.isReplyGen = []) :=
  ⟨by decide, by decide,
    claim_C5_crisis_dispatch 7 "919876543210" "wamid.1" "I need help"
      ⟨none, "mixed", "22:00", true, -1⟩
      ⟨some ⟨some true, some "high", some "suicidal"⟩, none, none⟩
      (by decide) (by decide)⟩

/-- C6, counterexample: three messages with mood `happy` and intensity
9.  The claim's rule fires (the average of the last five qualifying
intensities is 9 ≥ 7), but `_needs_attention` returns `false` because
its third clause additionally requires at least five stored
intensities. -/
theorem claim_C6_counterexample :
    needsAttention
        [⟨"happy", some 9, none⟩, ⟨"happy", some 9, none⟩, ⟨"happy", some 9, none⟩] = false ∧
    needsAttentionClaim
        [⟨"happy", some 9, none⟩, ⟨"happy", some 9, none⟩, ⟨"happy", some 9, none⟩] = true := by
  constructor
  · rw [needsAttention_eq_int]
    decide
  · rw [needsAttentionClaim_eq_int]
    decide

/-- C6, amended: `needs_attention` is true precisely when (a) the
sequence has at least 3 messages and at least 2 of the last 3 have a
mood in the negative set that additionally contains `lonely`, or (b)
at least 2 of the last 5 have such a mood with intensity ≥ 7, or (c)
the sequence has at least 5 messages and the non-null intensities
among the last 5 average at least 7. -/
theorem claim_C6_amended (messages : List PatternRow) :
    needsAttention messages = true ↔
      (3 ≤ messages.length ∧
        2 ≤ ((lastN 3 messages).filter fun m =>
          negativeMoodsAttention.contains m.mood).length) ∨
      2 ≤ ((lastN 5 messages).filter fun m =>
          negativeMoodsAttention.contains m.mood &&
            match m.intensity with
            | some i => decide (7 ≤ i)
            | none => false).length ∨
      (5 ≤ messages.length ∧
        (let ri : List Int := (lastN 5 (messages.map (·.intensity))).filterMap id
         ri ≠ [] ∧ (ri.sum : ℚ) / (ri.length : ℚ) ≥ 7)) := by
  simp only [needsAttention]
  rw [ite_chain3_eq_true_iff]
  refine or_congr ?_ (or_congr Iff.rfl ?_)
  · rw [lastN_lastN]
    exact and_congr (lastN5_length_ge3 messages) Iff.rfl
  · exact and_congr (map_length_ge5 messages) Iff.rfl

/-- C7: the time-preference parser maps any input containing an
affirmative word to `22:00`; `"9:30 pm"` to `"21:30"`; `"9 pm"` to
`"21:00"`; bare `"9"` to `"21:00"` (any bare 1–2 digit hour from 1 to
11 is treated as PM); `"21:00"` to `"21:00"`; and every input that
matches neither the affirmative words nor one of the three regexes
falls back to `"22:00"` without surfacing an error. -/
theorem claim_C7_time_pref :
    (∀ s : String,
      (containsSub (pyStrip (pyLower s.data)) "yes".data ||
        containsSub (pyStrip (pyLower s.data)) "ok".data ||
        containsSub (pyStrip (pyLower s.data)) "fine".data) = true →
      parseTimePreference s.data = "22:00") ∧
    parseTimePreference "9:30 pm".data = "21:30" ∧
    parseTimePreference "9 pm".data = "21:00" ∧
    parseTimePreference "9".data = "21:00" ∧
    (∀ h : Nat, 1 ≤ h → h ≤ 11 →
      parseTimePreference (Nat.repr h).data = fmtHM (h + 12) 0) ∧
    parseTimePreference "21:00".data = "21:00" ∧
    parseTimePreference "whenever".data = "22:00" ∧
    (∀ s : String,
      containsSub (pyStrip (pyLower s.data)) "yes".data = false →
      containsSub (pyStrip (pyLower s.data)) "ok".data = false →
      containsSub (pyStrip (pyLower s.data)) "fine".data = false →
      searchColon (pyStrip (pyLower s.data)) = none →
      searchHourAmPm (pyStrip (pyLower s.data)) = none →
      bareHour (pyStrip (pyLower s.data)) = none →
      parseTimePreference s.data = "22:00") := by
  refine ⟨?_, by decide, by decide, by decide, ?_, by decide, by decide, ?_⟩
  · intro s h
    simp only [parseTimePreference, h, if_true]
  · intro h h1 h2
    interval_cases h <;> decide
  · intro s h1 h2 h3 hcol hhp hbare
    simp [parseTimePreference, h1, h2, h3, hcol, hhp, hbare]

/-- C7, witness: the affirmative branch at `"ok then"`, the bare-hour
rule at 9, and the fallback branch at `"whenever"`. -/
theorem claim_C7_witness :
    ((containsSub (pyStrip (pyLower "ok then".data)) "yes".data ||
        containsSub (pyStrip (pyLower "ok then".data)) "ok".data ||
        containsSub (pyStrip (pyLower "ok then".data)) "fine".data) = true ∧
      parseTimePreference "ok then".data = "22:00") ∧
    (1 ≤ 9 ∧ 9 ≤ 11 ∧ parseTimePreference (Nat.repr 9).data = fmtHM (9 + 12) 0) ∧
    (containsSub (pyStrip (pyLower "whenever".data)) "yes".data = false ∧
      searchColon (pyStrip (pyLower "whenever".data)) = none ∧
      bareHour (pyStrip (pyLower "whenever".data)) = none ∧
      parseTimePreference "whenever".data = "22:00") :=
  ⟨⟨by decide, claim_C7_time_pref.1 "ok then" (by decide)⟩,
    ⟨by decide, by decide, (claim_C7_time_pref.2.2.2.2.1 9 (by decide) (by decide))⟩,
    ⟨by decide, by decide, by decide,
      claim_C7_time_pref.2.2.2.2.2.2.2 "whenever" (by decide) (by decide) (by decide)
        (by decide) (by decide) (by decide)⟩⟩

/-- C8: `_analyze_trend` yields `stable` below 3 points, and above
splits the sequence at `floor(n/2)` and compares the half averages
against the ±1.5 threshold; in particular `[3,3,3,8,8,8]` is
`intensifying`, `[8,8,8,3,3,3]` is `improving`, and `[5,5,5,5,5,5]`
is `stable`. -/
theorem claim_C8_trend :
    analyzeTrend [3, 3, 3, 8, 8, 8] = "intensifying" ∧
    analyzeTrend [8, 8, 8, 3, 3, 3] = "improving" ∧
    analyzeTrend [5, 5, 5, 5, 5, 5] = "stable" ∧
    (∀ l : List Int, l.length < 3 → analyzeTrend l = "stable") ∧
    (∀ l : List Int, 3 ≤ l.length →
      analyzeTrend l =
        (let mid := l.length / 2
         let first_avg : ℚ := ((l.take mid).sum : ℚ) / (mid : ℚ)
         let second_avg : ℚ := ((l.drop mid).sum : ℚ) / ((l.length - mid : ℕ) : ℚ)
         if second_avg - first_avg > 3 / 2 then "intensifying"
         else if second_avg - first_avg < -(3 / 2) then "improving"
         else "stable")) := by
  refine ⟨?_, ?_, ?_, ?_, ?_⟩
  · rw [analyzeTrend_eq_int]
    decide
  · rw [analyzeTrend_eq_int]
    decide
  · rw [analyzeTrend_eq_int]
    decide
  · intro l h
    simp [analyzeTrend, h]
  · intro l h
    simp only [analyzeTrend, Nat.not_lt.mpr h, if_false]

/-- C8, witness: the short-sequence rule at `[7]` and the split rule
at `[3,3,3,8,8,8]`. -/
theorem claim_C8_witness :
    (([7] : List Int).length < 3 ∧ analyzeTrend [7] = "stable") ∧
    (3 ≤ ([3, 3, 3, 8, 8, 8] : List Int).length ∧
      analyzeTrend [3, 3, 3, 8, 8, 8] =
        (let mid := ([3, 3, 3, 8, 8, 8] : List Int).length / 2
         let first_avg : ℚ :=
           ((([3, 3, 3, 8, 8, 8] : List Int).take mid).sum : ℚ) / (mid : ℚ)
         let second_avg : ℚ :=
           ((([3, 3, 3, 8, 8, 8] : List Int).drop mid).sum : ℚ) /
             ((([3, 3, 3, 8, 8, 8] : List Int).length - mid : ℕ) : ℚ)
         if second_avg - first_avg > 3 / 2 then "intensifying"
         else if second_avg - first_avg < -(3 / 2) then "improving"
         else "stable")) :=
  ⟨⟨by decide, claim_C8_trend.2.2.2.1 [7] (by decide)⟩,
    ⟨by decide, claim_C8_trend.2.2.2.2 [3, 3, 3, 8, 8, 8] (by decide)⟩⟩

/-- C9: `generate_daily_summary` returns `should_send=false` with no
summary text when fewer than 2 user-authored messages exist for the
date, and `should_send=true` with a non-null summary when at least 2
exist (given the data-model invariant that mood-classified user rows
carry a non-null intensity; a NULL intensity would make the arc
analysis raise). -/
theorem claim_C9_summary_threshold (messages : List DayMsg) (llm : Option String) :
    ((messages.filter (·.message_type == "user")).length < 2 →
      generateDailySummary messages llm =
        .ok ⟨none, none, (messages.filter (·.message_type == "user")).length, false⟩) ∧
    (2 ≤ (messages.filter (·.message_type == "user")).length →
      (∀ m ∈ messages.filter (·.message_type == "user"), m.intensity.isSome) →
      ∃ r : SummaryResult,
        generateDailySummary messages llm = .ok r ∧
          r.should_send = true ∧ r.summary ≠ none ∧
          r.message_count = (messages.filter (·.message_type == "user")).length) := by
  constructor
  · intro h
    simp [generateDailySummary, h]
  · intro h2 hint
    obtain ⟨arc, harc⟩ := analyzeEmotionalArc_ok _ hint
    refine ⟨⟨some (generateSummaryText llm arc), some arc,
      (messages.filter (·.message_type == "user")).length, true⟩, ?_, rfl, by simp, rfl⟩
    simp [generateDailySummary, Nat.not_lt.mpr h2, harc]

/-- C9, witness: one user message yields `should_send=false`, two
yield `should_send=true` with a summary. -/
theorem claim_C9_witness :
    ((([⟨"user", "hi", some "happy", some 5, 10⟩] : List DayMsg).filter
        (·.message_type == "user")).length < 2 ∧
      generateDailySummary [⟨"user", "hi", some "happy", some 5, 10⟩] none =
        .ok ⟨none, none,
          (([⟨"user", "hi", some "happy", some 5, 10⟩] : List DayMsg).filter
            (·.message_type == "user")).length, false⟩) ∧
    (2 ≤ (([⟨"user", "hi", some "happy", some 5, 10⟩,
          ⟨"user", "better now", some "calm", some 4, 20⟩] : List DayMsg).filter
        (·.message_type == "user")).length ∧
      (∀ m ∈ ([⟨"user", "hi", some "happy", some 5, 10⟩,
          ⟨"user", "better now", some "calm", some 4, 20⟩] : List DayMsg).filter
        (·.message_type == "user"), m.intensity.isSome) ∧
      ∃ r : SummaryResult,
        generateDailySummary
            [⟨"user", "hi", some "happy", some 5, 10⟩,
             ⟨"user", "better now", some "calm", some 4, 20⟩] none = .ok r ∧
          r.should_send = true ∧ r.summary ≠ none ∧
          r.message_count =
            (([⟨"user", "hi", some "happy", some 5, 10⟩,
              ⟨"user", "better now", some "calm", some 4, 20⟩] : List DayMsg).filter
              (·.message_type == "user")).length) :=
  ⟨⟨by decide,
      (claim_C9_summary_threshold [⟨"user", "hi", some "happy", some 5, 10⟩] none).1
        (by decide)⟩,
    ⟨by decide, by decide,
      (claim_C9_summary_threshold
          [⟨"user", "hi", some "happy", some 5, 10⟩,
           ⟨"user", "better now", some "calm", some 4, 20⟩] none).2
        (by decide) (by decide)⟩⟩

/-- C10: a preferences row with the completion flag set but a step
other than -1 is treated as incomplete by `is_onboarding_complete`,
while `get_onboarding_step` returns -1; the next inbound message is
therefore dispatched into onboarding with `current_step=-1`, which
falls through to the start-over branch — the reply asks for the name
with `next_step=1` and the stored row is untouched. -/
theorem claim_C10_partial_complete (p : PrefRow) (userId : Nat)
    (fromNumber messageId text : String) (o : Oracles)
    (hflag : p.onboarding_complete = true) (hstep : p.onboarding_step ≠ -1) :
    isOnboardingComplete (some p) = false ∧
    getOnboardingStep (some p) = -1 ∧
    (processOnboardingResponse text (-1) p).1 = ⟨startOverMessage, 1, false⟩ ∧
    (processOnboardingResponse text (-1) p).2 = p ∧
    handleTextMessage userId fromNumber messageId text (some p) o =
      [Event.markRead messageId, Event.send fromNumber startOverMessage] := by
  have h1 : isOnboardingComplete (some p) = false := by
    simp [isOnboardingComplete, hstep]
  have h2 : getOnboardingStep (some p) = -1 := by
    simp [getOnboardingStep, hflag]
  have h3 : processOnboardingResponse text (-1) p = (⟨startOverMessage, 1, false⟩, p) := by
    norm_num [processOnboardingResponse]
  refine ⟨h1, h2, by rw [h3], by rw [h3], ?_⟩
  simp [handleTextMessage, h1, h2, h3]

/-- C10, witness: a partial row with flag set and step 2. -/
theorem claim_C10_witness :
    (⟨none, "mixed", "22:00", true, 2⟩ : PrefRow).onboarding_complete = true ∧
    (⟨none, "mixed", "22:00", true, 2⟩ : PrefRow).onboarding_step ≠ -1 ∧
    (isOnboardingComplete (some ⟨none, "mixed", "22:00", true, 2⟩) = false ∧
      getOnboardingStep (some ⟨none, "mixed", "22:00", true, 2⟩) = -1 ∧
      (processOnboardingResponse "hello" (-1) ⟨none, "mixed", "22:00", true, 2⟩).1 =
        ⟨startOverMessage, 1, false⟩ ∧
      (processOnboardingResponse "hello" (-1) ⟨none, "mixed", "22:00", true, 2⟩).2 =
        ⟨none, "mixed", "22:00", true, 2⟩ ∧
      handleTextMessage 3 "911234567890" "wamid.2" "hello"
          (some ⟨none, "mixed", "22:00", true, 2⟩) ⟨none, none, none⟩ =
        [Event.markRead "wamid.2", Event.send "911234567890" startOverMessage]) :=
  ⟨rfl, by decide,
    claim_C10_partial_complete ⟨none, "mixed", "22:00", true, 2⟩ 3 "911234567890"
      "wamid.2" "hello" ⟨none, none, none⟩ rfl (by decide)⟩

end Khayal
